import Mathlib

/-!
Verification development for the FHIR summarization engine of the
Multi-Agent-Orchestration repository. The repository documents the engine
(docs/FHIR_Summary_Agent.md, the synthetic-patients overview) but ships no
implementation of it, so every definition below is modelled from the
specification text and checked against the documented behaviour.
-/

namespace FHIR

/-- Modelled from the spec: clinical status of a Condition
(active | resolved | inactive), section 3 of the spec. -/
inductive ClinicalStatus
  | active
  | resolved
  | inactive
deriving DecidableEq, Repr

/-- Modelled from the spec: severity of a Condition
(mild | moderate | severe | unspecified), section 3 of the spec. -/
inductive Severity
  | mild
  | moderate
  | severe
  | unspecified
deriving DecidableEq, Repr

/-- Modelled from the spec: a Condition resource: code (SNOMED CT), display
text, clinical status, severity, onset date (encoded as a year number). -/
structure Condition where
  code : String
  display : String
  status : ClinicalStatus
  severity : Severity
  onset : Nat
deriving DecidableEq, Repr

/-- Modelled from the spec: an optional reference range (low/high bounds)
attached to an Observation. -/
structure RefRange where
  low : Rat
  high : Rat
deriving DecidableEq, Repr

/-- Modelled from the spec: interpretation flag of an Observation
(normal | high | low | critical | unknown). -/
inductive Interp
  | normal
  | high
  | low
  | critical
  | unknown
deriving DecidableEq, Repr

/-- Modelled from the spec: an Observation resource: code (LOINC), display
text, numeric value, unit, optional reference range. -/
structure Observation where
  code : String
  display : String
  value : Rat
  unit : String
  range : Option RefRange
deriving DecidableEq, Repr

/-- Modelled from the spec: a PatientRecord: identifier, full name, birth
date, sex (administrative metadata beyond these is not needed by any claim). -/
structure PatientRecord where
  id : String
  fullName : String
  birthDate : String
  sex : String
deriving DecidableEq, Repr

/-! ## ConditionPrioritizer (spec section 4.3) -/

/-- Modelled from the spec: sort key 1, clinical status: active before
inactive/resolved. -/
def statusRank : ClinicalStatus → Nat
  | .active => 0
  | .inactive => 1
  | .resolved => 1

/-- Modelled from the spec: sort key 2, severity:
severe > moderate > mild > unspecified. -/
def severityRank : Severity → Nat
  | .severe => 0
  | .moderate => 1
  | .mild => 2
  | .unspecified => 3

/-- Modelled from the spec: the multi-key comparison used by
ConditionPrioritizer on index-tagged conditions: clinical status, then
severity, then more recent onset first, with remaining ties broken by the
original position (making the sort stable). -/
def condLE (x y : Nat × Condition) : Bool :=
  if statusRank x.2.status ≠ statusRank y.2.status then
    decide (statusRank x.2.status < statusRank y.2.status)
  else if severityRank x.2.severity ≠ severityRank y.2.severity then
    decide (severityRank x.2.severity < severityRank y.2.severity)
  else if x.2.onset ≠ y.2.onset then
    decide (y.2.onset < x.2.onset)
  else
    decide (x.1 ≤ y.1)

/-- Modelled from the spec: the stable multi-key sort of ConditionPrioritizer,
carried out on conditions tagged with their original position. -/
def prioritizeTagged (l : List Condition) : List (Nat × Condition) :=
  l.enum.mergeSort condLE

/-- Modelled from the spec: ConditionPrioritizer: input a list of Condition,
output the PrioritizedConditionList (most clinically significant first, no
condition dropped). -/
def prioritizeConditions (l : List Condition) : List Condition :=
  (prioritizeTagged l).map Prod.snd

theorem condLE_trans (a b c : Nat × Condition) (hab : condLE a b = true)
    (hbc : condLE b c = true) : condLE a c = true := by
  simp only [condLE] at *
  split_ifs at hab hbc ⊢ <;>
    simp only [decide_eq_true_eq] at * <;> omega

theorem condLE_total (a b : Nat × Condition) : condLE a b || condLE b a := by
  simp only [condLE, Bool.or_eq_true]
  split_ifs <;> simp only [decide_eq_true_eq] <;> omega

theorem prioritizeTagged_perm (l : List Condition) :
    (prioritizeTagged l).Perm l.enum :=
  List.mergeSort_perm l.enum condLE

theorem prioritizeTagged_sorted (l : List Condition) :
    (prioritizeTagged l).Pairwise (fun x y => condLE x y = true) :=
  List.sorted_mergeSort condLE_trans condLE_total l.enum

theorem prioritizeConditions_perm (l : List Condition) :
    (prioritizeConditions l).Perm l := by
  have h := (prioritizeTagged_perm l).map Prod.snd
  rwa [List.enum_map_snd] at h

/-! ## LabInterpreter (spec section 4.4) -/

/-- Modelled from the spec: interpretation of an Observation value against an
optional reference range: low if below range.low, high if above range.high,
normal otherwise; unknown when no reference range is present. A pure function
of (value, range). -/
def interpret (v : Rat) (r : Option RefRange) : Interp :=
  match r with
  | some rr => if v < rr.low then .low else if rr.high < v then .high else .normal
  | none => .unknown

/-- Modelled from the spec: the fixed allow-list of always-significant marker
codes (cardiac/inflammatory markers; the spec leaves the exact list to the
implementer). LOINC codes for Troponin I, BNP and C-reactive protein. -/
def alwaysSignificantCodes : List String := ["10839-9", "30934-4", "1988-5"]

/-- Modelled from the spec: an Observation is significant by range when its
computed interpretation is not normal. -/
def sigByRange (o : Observation) : Bool :=
  decide (interpret o.value o.range ≠ Interp.normal)

/-- Modelled from the spec: an Observation is significant by allow-list when
its code is one of the always-significant marker codes. -/
def sigByList (o : Observation) : Bool :=
  alwaysSignificantCodes.contains o.code

/-- Modelled from the spec: the clinically-significant flag: set when the
interpretation is not normal OR the code is in the fixed allow-list. -/
def significant (o : Observation) : Bool :=
  sigByRange o || sigByList o

/-- Modelled from the spec: one element of the InterpretedObservationList:
the source Observation together with its computed interpretation and
significance flag (computed, never stored back on the source). -/
structure InterpretedObs where
  obs : Observation
  interp : Interp
  signif : Bool
deriving DecidableEq, Repr

/-- Modelled from the spec: interpret a single Observation. -/
def interpretOne (o : Observation) : InterpretedObs :=
  ⟨o, interpret o.value o.range, significant o⟩

/-- Modelled from the spec: surfacing rank: significant-by-range first (0),
then significant-by-allow-list only (1), then normal (2). -/
def obsRank (o : Observation) : Nat :=
  if sigByRange o then 0 else if sigByList o then 1 else 2

/-- Modelled from the spec: LabInterpreter: input a list of Observation,
output the InterpretedObservationList, surfaced in the stable order
significant-by-range, then significant-by-allow-list, then normal, and
retaining every observation including normal ones. -/
def interpretObservations (l : List Observation) : List InterpretedObs :=
  (l.filter (fun o => obsRank o == 0) ++ l.filter (fun o => obsRank o == 1) ++
    l.filter (fun o => obsRank o == 2)).map interpretOne

theorem interpretObservations_map_obs (l : List Observation) :
    (interpretObservations l).map InterpretedObs.obs =
      l.filter (fun o => obsRank o == 0) ++ l.filter (fun o => obsRank o == 1) ++
        l.filter (fun o => obsRank o == 2) := by
  simp [interpretObservations, List.map_map, Function.comp_def, interpretOne]

theorem rank_partition_perm (l : List Observation) :
    (l.filter (fun o => obsRank o == 0) ++ l.filter (fun o => obsRank o == 1) ++
      l.filter (fun o => obsRank o == 2)).Perm l := by
  induction l with
  | nil => simp
  | cons o t ih =>
    have hassoc : (t.filter (fun o => obsRank o == 0) ++
        (t.filter (fun o => obsRank o == 1) ++ t.filter (fun o => obsRank o == 2))).Perm t := by
      rw [← List.append_assoc]
      exact ih
    have h : obsRank o = 0 ∨ obsRank o = 1 ∨ obsRank o = 2 := by
      simp only [obsRank]
      split_ifs <;> simp
    rcases h with h | h | h
    · simp only [List.filter_cons, h]
      norm_num
      exact hassoc
    · simp only [List.filter_cons, h]
      norm_num
      exact List.Perm.trans List.perm_middle (hassoc.cons o)
    · simp only [List.filter_cons, h]
      norm_num
      rw [← List.append_assoc]
      exact List.Perm.trans List.perm_middle (ih.cons o)

theorem interpretObservations_perm (l : List Observation) :
    ((interpretObservations l).map InterpretedObs.obs).Perm l := by
  rw [interpretObservations_map_obs]
  exact rank_partition_perm l

theorem interpretObservations_interp (l : List Observation) :
    ∀ e ∈ interpretObservations l,
      e.interp = interpret e.obs.value e.obs.range ∧
        e.signif = significant e.obs := by
  intro e he
  simp only [interpretObservations, List.mem_map] at he
  obtain ⟨o, _, rfl⟩ := he
  exact ⟨rfl, rfl⟩

theorem interpretObservations_rank_sorted (l : List Observation) :
    (interpretObservations l).Pairwise (fun a b => obsRank a.obs ≤ obsRank b.obs) := by
  have hmem : ∀ (k : Nat) (o : Observation),
      o ∈ l.filter (fun o => obsRank o == k) → obsRank o = k := by
    intro k o ho
    simp only [List.mem_filter, beq_iff_eq] at ho
    exact ho.2
  simp only [interpretObservations]
  rw [List.pairwise_map]
  rw [List.pairwise_append, List.pairwise_append]
  refine ⟨⟨?_, ?_, ?_⟩, ?_, ?_⟩
  · exact List.pairwise_of_forall_mem_list (by
      intro a ha b hb
      simp only [interpretOne]
      rw [hmem 0 a ha, hmem 0 b hb])
  · exact List.pairwise_of_forall_mem_list (by
      intro a ha b hb
      simp only [interpretOne]
      rw [hmem 1 a ha, hmem 1 b hb])
  · intro a ha b hb
    simp only [interpretOne]
    rw [hmem 0 a ha, hmem 1 b hb]
    omega
  · exact List.pairwise_of_forall_mem_list (by
      intro a ha b hb
      simp only [interpretOne]
      rw [hmem 2 a ha, hmem 2 b hb])
  · intro a ha b hb
    simp only [interpretOne]
    rcases List.mem_append.mp ha with h | h
    · rw [hmem 0 a h, hmem 2 b hb]; omega
    · rw [hmem 1 a h, hmem 2 b hb]; omega

/-! ## MedicationInferencer (spec section 4.5) -/

/-- Modelled from the spec: the declarative rule table mapping a condition
code to a medication-class label (e.g., coronary artery disease maps to
cardiovascular medications, diabetes to antidiabetic therapy). -/
def medicationRules : List (String × String) := [
  ("53741008", "cardiovascular medications"),
  ("59621000", "cardiovascular medications"),
  ("84114007", "cardiovascular medications"),
  ("22298006", "cardiovascular medications"),
  ("49436004", "cardiovascular medications"),
  ("44054006", "antidiabetic therapy"),
  ("55822004", "lipid-lowering therapy"),
  ("13645005", "bronchodilator therapy"),
  ("195967001", "bronchodilator therapy"),
  ("70995007", "pulmonary vasodilator therapy"),
  ("700250006", "antifibrotic therapy")]

/-- Modelled from the spec: MedicationInferencer: evaluates the rule table
against every condition in the list, deduplicates results by label; a
condition matching no rule contributes nothing. -/
def inferMedications (conds : List Condition) : List String :=
  (conds.flatMap (fun c =>
    medicationRules.filterMap (fun r => if r.1 = c.code then some r.2 else none))).dedup

theorem inferMedications_nodup (conds : List Condition) :
    (inferMedications conds).Nodup :=
  List.nodup_dedup _

theorem inferMedications_mem (conds : List Condition) (label : String) :
    label ∈ inferMedications conds ↔
      ∃ c ∈ conds, (c.code, label) ∈ medicationRules := by
  simp only [inferMedications, List.mem_dedup, List.mem_flatMap, List.mem_filterMap]
  constructor
  · rintro ⟨c, hc, r, hr, hif⟩
    refine ⟨c, hc, ?_⟩
    by_cases h : r.1 = c.code
    · simp only [h, if_true, Option.some.injEq] at hif
      have : r = (c.code, label) := by
        cases r
        simp_all
      rwa [this] at hr
    · simp [h] at hif
  · rintro ⟨c, hc, hr⟩
    exact ⟨c, hc, (c.code, label), hr, by simp⟩

/-! ## NarrativeComposer (spec section 4.6) -/

/-- Modelled from the spec: natural-language list join: comma-separated,
with the word and before the last item for three or more items,
plain two-item join with and for exactly two. -/
def njoinTail : List String → String
  | [] => ""
  | [a] => "and " ++ a
  | a :: rest => a ++ ", " ++ njoinTail rest

/-- Modelled from the spec: the standard natural-language join used by the
composer. -/
def njoin : List String → String
  | [] => ""
  | [a] => a
  | [a, b] => a ++ " and " ++ b
  | a :: rest => a ++ ", " ++ njoinTail rest

/-- Modelled from the spec: the number of major diagnoses used in the
narrative (top-N, default 3). -/
def topN : Nat := 3

/-- Modelled from the spec: the number of significant observations used in
the narrative (top-K, default 4). -/
def topK : Nat := 4

/-- Modelled from the spec: sentence 1 of the narrative: full name, the
phrase is a patient with, and the joined display texts of the top-N major
diagnoses; states there are no significant diagnoses when the prioritized
condition list is empty. -/
def sentence1 (p : PatientRecord) (prioritized : List Condition) : String :=
  if prioritized.isEmpty then
    p.fullName ++ " has no significant diagnoses on record."
  else
    p.fullName ++ " is a patient with " ++
      njoin ((prioritized.take topN).map Condition.display) ++ "."

/-- Modelled from the spec: display word for an interpretation flag. -/
def interpWord : Interp → String
  | .normal => "Normal"
  | .high => "High"
  | .low => "Low"
  | .critical => "Critical"
  | .unknown => "Unknown"

/-- Modelled from the spec: the phrase for one significant observation:
display, value with unit in parentheses, then the interpretation word. -/
def obsPhrase (e : InterpretedObs) : String :=
  e.obs.display ++ " (" ++ toString e.obs.value ++ " " ++ e.obs.unit ++ ") - " ++
    interpWord e.interp

/-- Modelled from the spec: sentence 2 of the narrative, omitted (none) when
there are no significant observations. -/
def sentence2 (iobs : List InterpretedObs) : Option String :=
  let sig := iobs.filter InterpretedObs.signif
  if sig.isEmpty then none
  else some ("Key laboratory findings include " ++
    njoin ((sig.take topK).map obsPhrase) ++ ".")

/-- Modelled from the spec: sentence 3 of the narrative, omitted (none) when
the inferred medication set is empty; phrased as inference. -/
def sentence3 (meds : List String) : Option String :=
  if meds.isEmpty then none
  else some ("The patient is likely on " ++ njoin meds ++ ".")

/-- Modelled from the spec: the ordered list of sentences making up the
narrative: sentence 1 always present, sentences 2 and 3 optional. -/
def narrativeSentences (p : PatientRecord) (prioritized : List Condition)
    (iobs : List InterpretedObs) (meds : List String) : List String :=
  sentence1 p prioritized :: (sentence2 iobs).toList ++ (sentence3 meds).toList

/-- Modelled from the spec: join of the sentence list into the narrative
string, separated by single spaces. -/
def joinSpace : List String → String
  | [] => ""
  | [a] => a
  | a :: rest => a ++ " " ++ joinSpace rest

/-- Modelled from the spec: NarrativeComposer: a pure, deterministic function
of PatientRecord, PrioritizedConditionList, InterpretedObservationList and
InferredMedicationSet. -/
def composeNarrative (p : PatientRecord) (prioritized : List Condition)
    (iobs : List InterpretedObs) (meds : List String) : String :=
  joinSpace (narrativeSentences p prioritized iobs meds)

theorem joinSpace_length_head (a : String) (rest : List String) :
    a.length ≤ (joinSpace (a :: rest)).length := by
  cases rest with
  | nil => simp [joinSpace]
  | cons b t =>
    show a.length ≤ (a ++ " " ++ joinSpace (b :: t)).length
    simp only [String.length_append]
    omega

theorem sentence1_length_pos (p : PatientRecord) (prioritized : List Condition) :
    0 < (sentence1 p prioritized).length := by
  unfold sentence1
  split_ifs
  · simp only [String.length_append]
    have : (" has no significant diagnoses on record.").length = 40 := by decide
    omega
  · simp only [String.length_append]
    have : (" is a patient with ").length = 19 := by decide
    omega

theorem composeNarrative_ne_empty (p : PatientRecord) (prioritized : List Condition)
    (iobs : List InterpretedObs) (meds : List String) :
    composeNarrative p prioritized iobs meds ≠ "" := by
  intro h
  have h1 : (sentence1 p prioritized).length ≤ ("" : String).length := by
    rw [← h]
    simp only [composeNarrative, narrativeSentences]
    exact joinSpace_length_head _ _
  have h2 := sentence1_length_pos p prioritized
  have h0 : ("" : String).length = 0 := by decide
  omega

/-! ## DetailedReportComposer (spec section 4.7) -/

/-- Modelled from the spec: the DetailedReport: patient demographics, every
condition (code, display, status, severity, onset), every observation with
value, unit, reference range where present, and interpretation. -/
structure DetailedReport where
  patient : PatientRecord
  conditions : List Condition
  observations : List InterpretedObs
deriving DecidableEq, Repr

/-- Modelled from the spec: DetailedReportComposer: assembles the full
structured report from the complete (unfiltered) prioritized condition list
and interpreted observation list; no data is summarized or dropped. -/
def composeReport (p : PatientRecord) (conds : List Condition)
    (obs : List Observation) : DetailedReport :=
  ⟨p, prioritizeConditions conds, interpretObservations obs⟩

/-! ## Bundle content and ResourceLoader (spec sections 4.1, 6) -/

/-- Modelled from the spec: a nested key/value document (JSON-style value):
the shape of successfully parsed raw bundle content. -/
inductive JVal
  | str (s : String)
  | num (q : Rat)
  | arr (xs : List JVal)
  | obj (fields : List (String × JVal))

/-- Modelled from the spec: raw bundle content as delivered by the resolver:
none models content that is not valid structured data (text that fails the
structural parse), some j is content that parsed into a nested document. -/
def RawContent : Type := Option JVal

/-- Modelled from the spec: field lookup in a nested document object. -/
def getField (j : JVal) (k : String) : Option JVal :=
  match j with
  | .obj fields => fields.lookup k
  | _ => none

/-- Modelled from the spec: string-typed field lookup. -/
def getStr (j : JVal) (k : String) : Option String :=
  match getField j k with
  | some (.str s) => some s
  | _ => none

/-- Modelled from the spec: numeric field lookup. -/
def getNum (j : JVal) (k : String) : Option Rat :=
  match getField j k with
  | some (.num q) => some q
  | _ => none

/-- Modelled from the spec: natural-number field lookup (used for the onset
date encoded as a year). -/
def getNat (j : JVal) (k : String) : Option Nat :=
  match getNum j k with
  | some q => if q.den = 1 ∧ 0 ≤ q.num then some q.num.toNat else none
  | none => none

/-- Modelled from the spec: the resource collection of a bundle document: the
entry field holding the array of resource entries; none when absent. -/
def entriesOf (j : JVal) : Option (List JVal) :=
  match getField j "entry" with
  | some (.arr xs) => some xs
  | _ => none

/-- Modelled from the spec: the resource-type discriminator of an entry. -/
def resourceTypeOf (e : JVal) : Option String :=
  getStr e "resourceType"

/-- Modelled from the spec: parse a clinical-status code. -/
def parseStatus (s : String) : Option ClinicalStatus :=
  if s = "active" then some .active
  else if s = "resolved" then some .resolved
  else if s = "inactive" then some .inactive
  else none

/-- Modelled from the spec: parse a severity code; a missing severity field
is the unspecified severity, not an error. -/
def parseSeverity (s : Option String) : Option Severity :=
  match s with
  | none => some .unspecified
  | some "mild" => some .mild
  | some "moderate" => some .moderate
  | some "severe" => some .severe
  | some _ => none

/-- Modelled from the spec: parse a Patient entry; none when the entry is not
a Patient or a required field is missing (such an entry is skipped). -/
def parsePatient (e : JVal) : Option PatientRecord :=
  match resourceTypeOf e with
  | some "Patient" =>
    match getStr e "id", getStr e "name", getStr e "birthDate", getStr e "gender" with
    | some i, some n, some b, some g => some ⟨i, n, b, g⟩
    | _, _, _, _ => none
  | _ => none

/-- Modelled from the spec: parse a Condition entry; none when the entry is
not a Condition or a required field is missing (such an entry is skipped). -/
def parseCondition (e : JVal) : Option Condition :=
  match resourceTypeOf e with
  | some "Condition" =>
    match getStr e "code", getStr e "display", getStr e "clinicalStatus",
        getNat e "onsetYear" with
    | some c, some d, some st, some y =>
      match parseStatus st, parseSeverity (getStr e "severity") with
      | some status, some severity => some ⟨c, d, status, severity, y⟩
      | _, _ => none
    | _, _, _, _ => none
  | _ => none

/-- Modelled from the spec: parse an Observation entry; the reference range
is present only when both bounds are; none when the entry is not an
Observation or a required field is missing (such an entry is skipped). -/
def parseObservation (e : JVal) : Option Observation :=
  match resourceTypeOf e with
  | some "Observation" =>
    match getStr e "code", getStr e "display", getNum e "value", getStr e "unit" with
    | some c, some d, some v, some u =>
      match getNum e "low", getNum e "high" with
      | some lo, some hi => some ⟨c, d, v, u, some ⟨lo, hi⟩⟩
      | _, _ => some ⟨c, d, v, u, none⟩
    | _, _, _, _ => none
  | _ => none

/-- Modelled from the spec: a validated in-memory bundle: the typed resources
recovered from the entries; unrecognized and individually malformed entries
have been skipped. -/
structure LoadedBundle where
  patients : List PatientRecord
  conditions : List Condition
  observations : List Observation
deriving DecidableEq, Repr

/-- Modelled from the spec: typed errors of the engine: UnknownPatientError,
MalformedBundleError, MissingResourceError; each carries the patient id and a
human-readable message where the spec asks for one. -/
inductive EngineError
  | unknownPatient (pid : String)
  | malformedBundle (pid : String) (msg : String)
  | missingResource (pid : String) (msg : String)
deriving DecidableEq, Repr

/-- Modelled from the spec: ResourceLoader: fails with MalformedBundleError
when the content is not valid structured data or lacks a resource collection;
otherwise builds the typed bundle by best effort, skipping entries that do
not parse as one of the recognized resource types. -/
def loadBundle (pid : String) (content : RawContent) :
    Except EngineError LoadedBundle :=
  match content with
  | none => .error (.malformedBundle pid "content is not valid structured data")
  | some j =>
    match entriesOf j with
    | none => .error (.malformedBundle pid "no resource collection present")
    | some es =>
      .ok ⟨es.filterMap parsePatient, es.filterMap parseCondition,
        es.filterMap parseObservation⟩

/-- Modelled from the spec: the per-patient view produced by
ResourceExtractor. -/
structure ExtractedData where
  patient : PatientRecord
  conditions : List Condition
  observations : List Observation
deriving DecidableEq, Repr

/-- Modelled from the spec: ResourceExtractor: exactly one PatientRecord,
failing with MissingResourceError when zero or more than one Patient resource
is present, plus the full Condition and Observation lists. -/
def extractResources (pid : String) (b : LoadedBundle) :
    Except EngineError ExtractedData :=
  match b.patients with
  | [p] => .ok ⟨p, b.conditions, b.observations⟩
  | [] => .error (.missingResource pid "no Patient resource in bundle")
  | _ => .error (.missingResource pid "multiple Patient resources in bundle")

/-! ## Pipeline entry points (spec section 6) -/

/-- Modelled from the spec: resolve a patient identifier through the store
and load the bundle: UnknownPatientError when the identifier does not
resolve to any known bundle. -/
def loadedOf (store : String → Option RawContent) (pid : String) :
    Except EngineError LoadedBundle :=
  match store pid with
  | none => .error (.unknownPatient pid)
  | some content => loadBundle pid content

/-- Modelled from the spec: the post-load part of analyze_patient_data:
extract the per-patient view and compose the full structured report. -/
def analyzeBundle (pid : String) (b : LoadedBundle) :
    Except EngineError DetailedReport :=
  match extractResources pid b with
  | .error e => .error e
  | .ok ex => .ok (composeReport ex.patient ex.conditions ex.observations)

/-- Modelled from the spec: the post-load part of generate_patient_summary:
extract, prioritize, interpret, infer medications, compose the narrative. -/
def summarizeBundle (pid : String) (b : LoadedBundle) :
    Except EngineError String :=
  match extractResources pid b with
  | .error e => .error e
  | .ok ex =>
    .ok (composeNarrative ex.patient (prioritizeConditions ex.conditions)
      (interpretObservations ex.observations)
      (inferMedications (prioritizeConditions ex.conditions)))

/-- Modelled from the spec: analyze_patient_data over an arbitrary store
(the configuration mapping patient identifiers to bundle content). -/
def analyzePatientDataWith (store : String → Option RawContent)
    (pid : String) : Except EngineError DetailedReport :=
  match loadedOf store pid with
  | .error e => .error e
  | .ok b => analyzeBundle pid b

/-- Modelled from the spec: generate_patient_summary over an arbitrary
store. -/
def generatePatientSummaryWith (store : String → Option RawContent)
    (pid : String) : Except EngineError String :=
  match loadedOf store pid with
  | .error e => .error e
  | .ok b => summarizeBundle pid b

/-! ## The closed, known set of synthetic patient bundles
(docs/FHIR_Summary_Agent.md, Available Patients; synthetic-patients
overview). The bundles below are compact but faithful renderings of the
documented synthetic patients. -/

/-- Modelled from the spec: a Patient entry of a bundle document. -/
def pEntry (i n b g : String) : JVal :=
  .obj [("resourceType", .str "Patient"), ("id", .str i), ("name", .str n),
    ("birthDate", .str b), ("gender", .str g)]

/-- Modelled from the spec: a Condition entry of a bundle document. -/
def cEntry (code disp status sev : String) (year : Nat) : JVal :=
  .obj [("resourceType", .str "Condition"), ("code", .str code),
    ("display", .str disp), ("clinicalStatus", .str status),
    ("severity", .str sev), ("onsetYear", .num (year : Rat))]

/-- Modelled from the spec: an Observation entry with a reference range. -/
def oEntry (code disp : String) (v : Rat) (u : String) (lo hi : Rat) : JVal :=
  .obj [("resourceType", .str "Observation"), ("code", .str code),
    ("display", .str disp), ("value", .num v), ("unit", .str u),
    ("low", .num lo), ("high", .num hi)]

/-- Modelled from the spec: bundle for patient-p01, Robert James Henderson,
the cardiovascular patient of the synthetic-patients overview. -/
def p01Bundle : JVal :=
  .obj [("resourceType", .str "Bundle"), ("entry", .arr [
    pEntry "patient-p01" "Robert James Henderson" "1957-03-15" "male",
    cEntry "53741008" "Coronary artery disease" "active" "severe" 2019,
    cEntry "59621000" "Essential hypertension" "active" "moderate" 2009,
    cEntry "84114007" "Heart failure" "active" "moderate" 2023,
    cEntry "22298006" "Myocardial infarction" "resolved" "severe" 2021,
    cEntry "44054006" "Type 2 diabetes mellitus" "active" "moderate" 2014,
    cEntry "55822004" "Hyperlipidemia" "active" "moderate" 2019,
    oEntry "10839-9" "Troponin I" 0.02 "ng/mL" 0 0.04,
    oEntry "30934-4" "BNP" 385 "pg/mL" 0 100,
    oEntry "2093-3" "Cholesterol, total" 185 "mg/dL" 0 200,
    oEntry "13457-7" "LDL cholesterol" 85 "mg/dL" 0 70,
    oEntry "2345-7" "Glucose" 142 "mg/dL" 70 100])]

/-- Modelled from the spec: bundle for patient-p02, Linda Marie Williams,
the pulmonary patient of the synthetic-patients overview. -/
def p02Bundle : JVal :=
  .obj [("resourceType", .str "Bundle"), ("entry", .arr [
    pEntry "patient-p02" "Linda Marie Williams" "1960-07-22" "female",
    cEntry "13645005" "Severe COPD" "active" "severe" 2015,
    cEntry "195967001" "Asthma" "active" "moderate" 1985,
    cEntry "70995007" "Pulmonary hypertension" "active" "moderate" 2020,
    cEntry "700250006" "Idiopathic pulmonary fibrosis" "active" "severe" 2022,
    oEntry "30934-4" "BNP" 425 "pg/mL" 0 100,
    oEntry "1988-5" "C-reactive protein" 12.5 "mg/L" 0 5,
    oEntry "2708-6" "Oxygen saturation" 89 "%" 94 100])]

/-- Modelled from the spec: bundle for patient-p03, Alex Jordan Thompson,
the healthy patient of the synthetic-patients overview. -/
def p03Bundle : JVal :=
  .obj [("resourceType", .str "Bundle"), ("entry", .arr [
    pEntry "patient-p03" "Alex Jordan Thompson" "2000-05-10" "male",
    cEntry "21351003" "Fracture of great toe" "resolved" "mild" 2022,
    oEntry "2345-7" "Glucose" 88 "mg/dL" 70 100,
    oEntry "718-7" "Hemoglobin" 15.2 "g/dL" 13.5 17.5,
    oEntry "3016-3" "TSH" 2.1 "mIU/L" 0.4 4.5])]

/-- Modelled from the spec: the configuration mapping patient identifiers to
bundle content: exactly the three documented synthetic patients resolve. -/
def defaultStore (pid : String) : Option RawContent :=
  if pid = "patient-p01" then some (some p01Bundle)
  else if pid = "patient-p02" then some (some p02Bundle)
  else if pid = "patient-p03" then some (some p03Bundle)
  else none

/-- Modelled from the spec: the generate_patient_summary entry point over the
documented store. -/
def generatePatientSummary (pid : String) : Except EngineError String :=
  generatePatientSummaryWith defaultStore pid

/-- Modelled from the spec: the analyze_patient_data entry point over the
documented store. -/
def analyzePatientData (pid : String) : Except EngineError DetailedReport :=
  analyzePatientDataWith defaultStore pid

/-- The identifiers documented as available. -/
def knownPatientIds : List String := ["patient-p01", "patient-p02", "patient-p03"]

/-! ## Helper lemmas about the pipeline -/

theorem summary_unknown (store : String → Option RawContent) (pid : String)
    (h : store pid = none) :
    generatePatientSummaryWith store pid = .error (.unknownPatient pid) := by
  simp [generatePatientSummaryWith, loadedOf, h]

theorem analyze_unknown (store : String → Option RawContent) (pid : String)
    (h : store pid = none) :
    analyzePatientDataWith store pid = .error (.unknownPatient pid) := by
  simp [analyzePatientDataWith, loadedOf, h]

theorem summary_unparseable (store : String → Option RawContent) (pid : String)
    (h : store pid = some none) :
    generatePatientSummaryWith store pid =
      .error (.malformedBundle pid "content is not valid structured data") := by
  simp [generatePatientSummaryWith, loadedOf, h, loadBundle]

theorem analyze_unparseable (store : String → Option RawContent) (pid : String)
    (h : store pid = some none) :
    analyzePatientDataWith store pid =
      .error (.malformedBundle pid "content is not valid structured data") := by
  simp [analyzePatientDataWith, loadedOf, h, loadBundle]

theorem summary_no_collection (store : String → Option RawContent) (pid : String)
    (j : JVal) (h : store pid = some (some j)) (hj : entriesOf j = none) :
    generatePatientSummaryWith store pid =
      .error (.malformedBundle pid "no resource collection present") := by
  simp [generatePatientSummaryWith, loadedOf, h, loadBundle, hj]

theorem analyze_no_collection (store : String → Option RawContent) (pid : String)
    (j : JVal) (h : store pid = some (some j)) (hj : entriesOf j = none) :
    analyzePatientDataWith store pid =
      .error (.malformedBundle pid "no resource collection present") := by
  simp [analyzePatientDataWith, loadedOf, h, loadBundle, hj]

theorem loadBundle_entries (pid : String) (j : JVal) (es : List JVal)
    (hj : entriesOf j = some es) :
    loadBundle pid (some j) =
      .ok ⟨es.filterMap parsePatient, es.filterMap parseCondition,
        es.filterMap parseObservation⟩ := by
  simp [loadBundle, hj]

theorem summary_ambiguous (store : String → Option RawContent) (pid : String)
    (j : JVal) (es : List JVal) (h : store pid = some (some j))
    (hj : entriesOf j = some es) (hn : (es.filterMap parsePatient).length ≠ 1) :
    ∃ m, generatePatientSummaryWith store pid = .error (.missingResource pid m) ∧
      analyzePatientDataWith store pid = .error (.missingResource pid m) := by
  have hload := loadBundle_entries pid j es hj
  rcases hps : es.filterMap parsePatient with _ | ⟨p, _ | ⟨q, t⟩⟩
  · refine ⟨"no Patient resource in bundle", ?_, ?_⟩ <;>
      simp [generatePatientSummaryWith, analyzePatientDataWith, loadedOf, h,
        hload, summarizeBundle, analyzeBundle, extractResources, hps]
  · rw [hps] at hn
    simp at hn
  · refine ⟨"multiple Patient resources in bundle", ?_, ?_⟩ <;>
      simp [generatePatientSummaryWith, analyzePatientDataWith, loadedOf, h,
        hload, summarizeBundle, analyzeBundle, extractResources, hps]

theorem extract_unique (pid : String) (b : LoadedBundle) (p : PatientRecord)
    (hp : b.patients = [p]) :
    extractResources pid b = .ok ⟨p, b.conditions, b.observations⟩ := by
  simp [extractResources, hp]

theorem analyze_ok (store : String → Option RawContent) (pid : String)
    (b : LoadedBundle) (p : PatientRecord) (hb : loadedOf store pid = .ok b)
    (hp : b.patients = [p]) :
    analyzePatientDataWith store pid =
      .ok (composeReport p b.conditions b.observations) := by
  simp [analyzePatientDataWith, hb, analyzeBundle, extract_unique pid b p hp]

theorem summary_ok (store : String → Option RawContent) (pid : String)
    (b : LoadedBundle) (p : PatientRecord) (hb : loadedOf store pid = .ok b)
    (hp : b.patients = [p]) :
    generatePatientSummaryWith store pid =
      .ok (composeNarrative p (prioritizeConditions b.conditions)
        (interpretObservations b.observations)
        (inferMedications (prioritizeConditions b.conditions))) := by
  simp [generatePatientSummaryWith, hb, summarizeBundle, extract_unique pid b p hp]

/-! ## Concrete values used to instantiate the claim theorems -/

/-- The bundle loaded for patient-p01 through the documented store. -/
def p01Loaded : LoadedBundle :=
  (loadedOf defaultStore "patient-p01").toOption.getD ⟨[], [], []⟩

/-- The detailed report produced for patient-p01. -/
def p01Report : DetailedReport :=
  (analyzePatientData "patient-p01").toOption.getD ⟨⟨"", "", "", ""⟩, [], []⟩

/-- The PatientRecord of patient-p01. -/
def p01Patient : PatientRecord :=
  ⟨"patient-p01", "Robert James Henderson", "1957-03-15", "male"⟩

/-- The coronary-artery-disease Condition of patient-p01. -/
def p01CAD : Condition :=
  ⟨"53741008", "Coronary artery disease", .active, .severe, 2019⟩

/-- The BNP Observation of the documented scenario. -/
def bnpObsDemo : Observation := ⟨"30934-4", "BNP", 385, "pg/mL", some ⟨0, 100⟩⟩

/-- A bundle entry with an unrecognized resource type. -/
def junkEntry : JVal := .obj [("resourceType", .str "Device")]

/-- A bundle document wrapping a list of entries into a resource
collection. -/
def mkCollection (es : List JVal) : JVal := .obj [("entry", .arr es)]

theorem parsePatient_none_of_type (e : JVal)
    (h : resourceTypeOf e ≠ some "Patient") : parsePatient e = none := by
  unfold parsePatient
  split
  · rename_i heq
    exact absurd heq h
  · rfl

theorem parseCondition_none_of_type (e : JVal)
    (h : resourceTypeOf e ≠ some "Condition") : parseCondition e = none := by
  unfold parseCondition
  split
  · rename_i heq
    exact absurd heq h
  · rfl

theorem parseObservation_none_of_type (e : JVal)
    (h : resourceTypeOf e ≠ some "Observation") : parseObservation e = none := by
  unfold parseObservation
  split
  · rename_i heq
    exact absurd heq h
  · rfl

/-! ## Claim theorems -/

/-- C7: for every patient identifier and bundle content, the two entry points
fail with exactly the typed error matching the violation: UnknownPatientError
when the identifier does not resolve to any known bundle, MalformedBundleError
when the content is not valid structured data or lacks a resource collection,
and MissingResourceError when the bundle contains zero or more than one
Patient resource. Every failure is a typed value of a total function, so the
process is never terminated. -/
theorem typed_error_taxonomy (store : String → Option RawContent) (pid : String) :
    (store pid = none →
      generatePatientSummaryWith store pid = .error (.unknownPatient pid) ∧
      analyzePatientDataWith store pid = .error (.unknownPatient pid)) ∧
    (store pid = some none →
      generatePatientSummaryWith store pid =
        .error (.malformedBundle pid "content is not valid structured data") ∧
      analyzePatientDataWith store pid =
        .error (.malformedBundle pid "content is not valid structured data")) ∧
    (∀ j, store pid = some (some j) → entriesOf j = none →
      generatePatientSummaryWith store pid =
        .error (.malformedBundle pid "no resource collection present") ∧
      analyzePatientDataWith store pid =
        .error (.malformedBundle pid "no resource collection present")) ∧
    (∀ j es, store pid = some (some j) → entriesOf j = some es →
      (es.filterMap parsePatient).length ≠ 1 →
      ∃ m, generatePatientSummaryWith store pid = .error (.missingResource pid m) ∧
        analyzePatientDataWith store pid = .error (.missingResource pid m)) := by
  refine ⟨?_, ?_, ?_, ?_⟩
  · intro h
    exact ⟨summary_unknown store pid h, analyze_unknown store pid h⟩
  · intro h
    exact ⟨summary_unparseable store pid h, analyze_unparseable store pid h⟩
  · intro j h hj
    exact ⟨summary_no_collection store pid j h hj, analyze_no_collection store pid j h hj⟩
  · intro j es h hj hn
    exact summary_ambiguous store pid j es h hj hn

/-- Concrete instantiation of the error taxonomy: an unrecognized identifier,
unparseable content, and a bundle with no Patient resource. -/
theorem typed_error_taxonomy_witness :
    generatePatientSummary "no-such-patient" =
      .error (.unknownPatient "no-such-patient") ∧
    generatePatientSummaryWith (fun _ => some none) "x" =
      .error (.malformedBundle "x" "content is not valid structured data") ∧
    (∃ m, generatePatientSummaryWith
        (fun _ => some (some (JVal.obj [("entry", JVal.arr [])]))) "y" =
          .error (.missingResource "y" m) ∧
      analyzePatientDataWith
        (fun _ => some (some (JVal.obj [("entry", JVal.arr [])]))) "y" =
          .error (.missingResource "y" m)) :=
  ⟨((typed_error_taxonomy defaultStore "no-such-patient").1 rfl).1,
   ((typed_error_taxonomy (fun _ => some none) "x").2.1 rfl).1,
   (typed_error_taxonomy (fun _ => some (some (JVal.obj [("entry", JVal.arr [])])))
     "y").2.2.2 (JVal.obj [("entry", JVal.arr [])]) [] rfl rfl (by decide)⟩

/-- C10: the set of patient identifiers that resolve to a bundle is exactly
patient-p01, patient-p02, patient-p03; every identifier outside this set
makes both entry points fail with UnknownPatientError. -/
theorem known_patient_domain (pid : String) :
    ((defaultStore pid).isSome = true ↔
      pid = "patient-p01" ∨ pid = "patient-p02" ∨ pid = "patient-p03") ∧
    (pid ∉ knownPatientIds →
      generatePatientSummary pid = .error (.unknownPatient pid) ∧
      analyzePatientData pid = .error (.unknownPatient pid)) := by
  have hstore : pid ∉ knownPatientIds → defaultStore pid = none := by
    intro h
    simp only [knownPatientIds, List.mem_cons, List.not_mem_nil, or_false,
      not_or] at h
    simp [defaultStore, h.1, h.2.1, h.2.2]
  constructor
  · unfold defaultStore
    split_ifs with h1 h2 h3 <;> simp_all
  · intro h
    exact ⟨summary_unknown _ _ (hstore h), analyze_unknown _ _ (hstore h)⟩

/-- Concrete instantiation for the known-identifier set: patient-p02
resolves, patient-p99 fails with UnknownPatientError. -/
theorem known_patient_domain_witness :
    (defaultStore "patient-p02").isSome = true ∧
    generatePatientSummary "patient-p99" = .error (.unknownPatient "patient-p99") :=
  ⟨(known_patient_domain "patient-p02").1.mpr (Or.inr (Or.inl rfl)),
   ((known_patient_domain "patient-p99").2 (by decide)).1⟩

/-- C1: for every valid bundle (one the pipeline loads and analyzes
successfully), analyze_patient_data returns a DetailedReport whose condition
list is a permutation of the loaded conditions and whose observation list
carries every loaded observation: nothing is omitted, summarized away or
dropped. -/
theorem analyze_complete (store : String → Option RawContent) (pid : String)
    (b : LoadedBundle) (r : DetailedReport) (hb : loadedOf store pid = .ok b)
    (hr : analyzePatientDataWith store pid = .ok r) :
    r.conditions.Perm b.conditions ∧
    (r.observations.map InterpretedObs.obs).Perm b.observations := by
  simp only [analyzePatientDataWith, hb] at hr
  rcases hps : b.patients with _ | ⟨p, _ | ⟨q, t⟩⟩
  · simp [analyzeBundle, extractResources, hps] at hr
  · simp only [analyzeBundle, extract_unique pid b p hps, Except.ok.injEq] at hr
    rw [← hr]
    exact ⟨prioritizeConditions_perm _, interpretObservations_perm _⟩
  · simp [analyzeBundle, extractResources, hps] at hr

/-- Concrete instantiation of report completeness on patient-p01. -/
theorem analyze_complete_witness :
    loadedOf defaultStore "patient-p01" = .ok p01Loaded ∧
    analyzePatientData "patient-p01" = .ok p01Report ∧
    p01Report.conditions.Perm p01Loaded.conditions ∧
    (p01Report.observations.map InterpretedObs.obs).Perm p01Loaded.observations := by
  have h1 : loadedOf defaultStore "patient-p01" = .ok p01Loaded := rfl
  have h2 : analyzePatientDataWith defaultStore "patient-p01" = .ok p01Report := rfl
  have h3 := analyze_complete defaultStore "patient-p01" p01Loaded p01Report h1 h2
  exact ⟨h1, h2, h3.1, h3.2⟩

/-- C2: ConditionPrioritizer returns a permutation of its input, ordered by
the stable multi-key sort (clinical status, then severity, then more recent
onset first, remaining ties by original input position, which condLE encodes
on position-tagged conditions), and is deterministic: equal inputs give
equal outputs. -/
theorem conditionPrioritizer_spec (l : List Condition) :
    (prioritizeConditions l).Perm l ∧
    prioritizeConditions l = (prioritizeTagged l).map Prod.snd ∧
    (prioritizeTagged l).Perm l.enum ∧
    (prioritizeTagged l).Pairwise (fun x y => condLE x y = true) ∧
    (∀ l₂, l₂ = l → prioritizeConditions l₂ = prioritizeConditions l) :=
  ⟨prioritizeConditions_perm l, rfl, prioritizeTagged_perm l,
   prioritizeTagged_sorted l, fun _ h => by rw [h]⟩

/-- Concrete instantiation of prioritizer correctness on the conditions of
the documented scenario. -/
theorem conditionPrioritizer_spec_witness :
    (prioritizeConditions [p01CAD,
      ⟨"59621000", "Essential hypertension", .active, .moderate, 2009⟩,
      ⟨"84114007", "Heart failure", .active, .moderate, 2023⟩]).Perm
      [p01CAD,
      ⟨"59621000", "Essential hypertension", .active, .moderate, 2009⟩,
      ⟨"84114007", "Heart failure", .active, .moderate, 2023⟩] ∧
    prioritizeConditions ([] : List Condition) = prioritizeConditions [] :=
  ⟨(conditionPrioritizer_spec _).1,
   (conditionPrioritizer_spec ([] : List Condition)).2.2.2.2 [] rfl⟩

/-- C8: every display text and value in the narrative is traceable to the
source bundle: the narrative is composed exclusively from the derived lists,
every condition in the prioritized list and every observation under an
interpreted entry is a resource of the loaded bundle, every inferred label is
triggered by a rule matching a bundle condition, and interpretation and
significance are recomputed pure functions of the source observation, never
stored back onto it. -/
theorem narrative_traceability (store : String → Option RawContent)
    (pid : String) (b : LoadedBundle) (p : PatientRecord)
    (hb : loadedOf store pid = .ok b) (hp : b.patients = [p]) :
    generatePatientSummaryWith store pid = .ok (composeNarrative p
      (prioritizeConditions b.conditions) (interpretObservations b.observations)
      (inferMedications (prioritizeConditions b.conditions))) ∧
    (∀ c ∈ prioritizeConditions b.conditions, c ∈ b.conditions) ∧
    (∀ e ∈ interpretObservations b.observations,
      e.obs ∈ b.observations ∧ e.interp = interpret e.obs.value e.obs.range ∧
        e.signif = significant e.obs) ∧
    (∀ label ∈ inferMedications (prioritizeConditions b.conditions),
      ∃ c ∈ b.conditions, (c.code, label) ∈ medicationRules) := by
  refine ⟨summary_ok store pid b p hb hp, ?_, ?_, ?_⟩
  · intro c hc
    exact (prioritizeConditions_perm b.conditions).mem_iff.mp hc
  · intro e he
    have h1 := interpretObservations_interp b.observations e he
    have h2 : e.obs ∈ (interpretObservations b.observations).map InterpretedObs.obs :=
      List.mem_map_of_mem _ he
    exact ⟨(interpretObservations_perm b.observations).mem_iff.mp h2, h1.1, h1.2⟩
  · intro label hl
    obtain ⟨c, hc, hr⟩ := (inferMedications_mem _ label).mp hl
    exact ⟨c, (prioritizeConditions_perm b.conditions).mem_iff.mp hc, hr⟩

/-- Concrete instantiation of traceability on patient-p01. -/
theorem narrative_traceability_witness :
    generatePatientSummary "patient-p01" = .ok (composeNarrative p01Patient
      (prioritizeConditions p01Loaded.conditions)
      (interpretObservations p01Loaded.observations)
      (inferMedications (prioritizeConditions p01Loaded.conditions))) :=
  (narrative_traceability defaultStore "patient-p01" p01Loaded p01Patient rfl rfl).1

/-- C3: for every Observation value with a reference range whose bounds are
ordered, the interpretation is low below the range, high above it, normal
inside it, and unknown when no range is present; within a list of
observations, each entry carries exactly interpret of its own value and
range, independent of the other observations and of call order. -/
theorem labInterpreter_cases (v lo hi : Rat) (l : List Observation)
    (hr : lo ≤ hi) :
    (v < lo → interpret v (some ⟨lo, hi⟩) = .low) ∧
    (hi < v → interpret v (some ⟨lo, hi⟩) = .high) ∧
    (lo ≤ v → v ≤ hi → interpret v (some ⟨lo, hi⟩) = .normal) ∧
    interpret v none = .unknown ∧
    (∀ e ∈ interpretObservations l, e.interp = interpret e.obs.value e.obs.range) := by
  refine ⟨?_, ?_, ?_, rfl, fun e he => (interpretObservations_interp l e he).1⟩
  · intro h
    simp [interpret, h]
  · intro h
    have h1 : ¬ v < lo := not_lt.mpr (le_trans hr (le_of_lt h))
    simp [interpret, h1, h]
  · intro h1 h2
    have h3 : ¬ v < lo := not_lt.mpr h1
    have h4 : ¬ hi < v := not_lt.mpr h2
    simp [interpret, h3, h4]

/-- Concrete instantiation on the documented scenario: BNP 385 against range
(0, 100) is high, Troponin 0.02 against (0, 0.04) is normal, a value with no
range is unknown. -/
theorem labInterpreter_cases_witness :
    interpret 385 (some ⟨0, 100⟩) = .high ∧
    interpret 0.02 (some ⟨0, 0.04⟩) = .normal ∧
    interpret 5 none = .unknown :=
  ⟨(labInterpreter_cases 385 0 100 [] (by norm_num)).2.1 (by norm_num),
   (labInterpreter_cases 0.02 0 0.04 [] (by norm_num)).2.2.1 (by norm_num)
     (by norm_num),
   (labInterpreter_cases 5 0 1 [] (by norm_num)).2.2.2.1⟩

/-- C4: every interpreted entry has its significance flag set exactly when
its interpretation is not normal or its code is in the fixed allow-list; the
InterpretedObservationList retains every observation (permutation) and
surfaces them significant-by-range first, then significant-by-allow-list,
then normal; the filter-based characterization makes the order within each
class the stable input order. -/
theorem labInterpreter_significance (l : List Observation) :
    (∀ e ∈ interpretObservations l,
      e.signif = (decide (e.interp ≠ Interp.normal) ||
        alwaysSignificantCodes.contains e.obs.code)) ∧
    ((interpretObservations l).map InterpretedObs.obs).Perm l ∧
    (interpretObservations l).Pairwise (fun a b => obsRank a.obs ≤ obsRank b.obs) ∧
    (interpretObservations l).map InterpretedObs.obs =
      l.filter (fun o => obsRank o == 0) ++ l.filter (fun o => obsRank o == 1) ++
        l.filter (fun o => obsRank o == 2) := by
  refine ⟨?_, interpretObservations_perm l, interpretObservations_rank_sorted l,
    interpretObservations_map_obs l⟩
  intro e he
  simp only [interpretObservations, List.mem_map] at he
  obtain ⟨o, _, rfl⟩ := he
  rfl

/-- Concrete instantiation of the significance flag and retention on the BNP
observation of the documented scenario. -/
theorem labInterpreter_significance_witness :
    (interpretOne bnpObsDemo).signif =
      (decide ((interpretOne bnpObsDemo).interp ≠ Interp.normal) ||
        alwaysSignificantCodes.contains (interpretOne bnpObsDemo).obs.code) ∧
    ((interpretObservations [bnpObsDemo]).map InterpretedObs.obs).Perm [bnpObsDemo] := by
  have hi385 : interpret (385 : Rat) (some ⟨0, 100⟩) = Interp.high := by
    norm_num [interpret]
  have hrank : obsRank bnpObsDemo = 0 := by
    simp [obsRank, sigByRange, bnpObsDemo, hi385]
  have hmem : interpretOne bnpObsDemo ∈ interpretObservations [bnpObsDemo] := by
    simp [interpretObservations, List.filter_cons, hrank]
  exact ⟨(labInterpreter_significance [bnpObsDemo]).1 _ hmem,
    (labInterpreter_significance [bnpObsDemo]).2.1⟩

/-- C5: MedicationInferencer evaluates the rule table against every condition
in the list: a label is inferred exactly when some condition in the full list
matches a rule with that label; the result has no duplicate labels; a
condition matching no rule contributes nothing (the function is total, no
error); the empty condition list yields the empty set. -/
theorem medicationInferencer_spec (conds : List Condition) :
    (inferMedications conds).Nodup ∧
    (∀ label, label ∈ inferMedications conds ↔
      ∃ c ∈ conds, (c.code, label) ∈ medicationRules) ∧
    inferMedications [] = [] :=
  ⟨inferMedications_nodup conds, fun label => inferMedications_mem conds label, rfl⟩

/-- C6 counterexample: a patient with no conditions, no observations and no
inferred medications yields a narrative with exactly one sentence, so the
narrative is not 2-4 sentences for every input. -/
theorem narrative_sentence_count_counterexample :
    (narrativeSentences p01Patient [] [] []).length = 1 ∧
    composeNarrative p01Patient [] [] [] =
      "Robert James Henderson has no significant diagnoses on record." :=
  ⟨rfl, rfl⟩

/-- C6 (amended): the narrative has one to three sentences with the fixed
structure: sentence 1 is always present and is the full name with the
top-N major diagnoses, or the no-significant-diagnoses sentence when the
condition list is empty; sentence 2 lists the top-K significant observations
and is omitted exactly when there are none; sentence 3 names the inferred
medication classes and is omitted exactly when the set is empty; the
narrative is never the empty string and never an error. -/
theorem narrativeComposer_spec (p : PatientRecord) (cs : List Condition)
    (iobs : List InterpretedObs) (meds : List String) :
    1 ≤ (narrativeSentences p cs iobs meds).length ∧
    (narrativeSentences p cs iobs meds).length ≤ 3 ∧
    composeNarrative p cs iobs meds ≠ "" ∧
    (narrativeSentences p cs iobs meds).head? = some (sentence1 p cs) ∧
    (cs = [] → sentence1 p cs =
      p.fullName ++ " has no significant diagnoses on record.") ∧
    (cs ≠ [] → sentence1 p cs = p.fullName ++ " is a patient with " ++
      njoin ((cs.take topN).map Condition.display) ++ ".") ∧
    ((iobs.filter InterpretedObs.signif).isEmpty = true ↔ sentence2 iobs = none) ∧
    (∀ s, sentence2 iobs = some s → s = "Key laboratory findings include " ++
      njoin (((iobs.filter InterpretedObs.signif).take topK).map obsPhrase) ++ ".") ∧
    (meds.isEmpty = true ↔ sentence3 meds = none) ∧
    (∀ s, sentence3 meds = some s →
      s = "The patient is likely on " ++ njoin meds ++ ".") := by
  have l2 : (sentence2 iobs).toList.length ≤ 1 := by
    cases sentence2 iobs <;> simp
  have l3 : (sentence3 meds).toList.length ≤ 1 := by
    cases sentence3 meds <;> simp
  refine ⟨?_, ?_, composeNarrative_ne_empty p cs iobs meds, rfl, ?_, ?_, ?_, ?_, ?_, ?_⟩
  · simp [narrativeSentences]
  · simp only [narrativeSentences, List.length_cons, List.length_append]
    omega
  · intro h
    subst h
    simp [sentence1]
  · intro h
    simp [sentence1, List.isEmpty_iff, h]
  · simp only [sentence2]
    split_ifs with h <;> simp [h]
  · intro s h
    simp only [sentence2] at h
    split_ifs at h with hs
    simp only [Option.some.injEq] at h
    exact h.symm
  · simp only [sentence3]
    split_ifs with h <;> simp [h]
  · intro s h
    simp only [sentence3] at h
    split_ifs at h with hs
    simp only [Option.some.injEq] at h
    exact h.symm

/-- Concrete instantiation of the amended narrative structure: the empty
condition list yields the no-significant-diagnoses sentence and a non-empty
narrative, and the empty medication set omits sentence 3. -/
theorem narrativeComposer_spec_witness :
    composeNarrative p01Patient [] [] [] ≠ "" ∧
    sentence1 p01Patient [] =
      "Robert James Henderson" ++ " has no significant diagnoses on record." ∧
    sentence3 [] = none := by
  have h := narrativeComposer_spec p01Patient [] [] []
  exact ⟨h.2.2.1, h.2.2.2.2.1 rfl, (h.2.2.2.2.2.2.2.2.1).mp rfl⟩

/-- C9: for every bundle whose structure parses and contains a resource
collection, the loader succeeds regardless of the entries; an individually
malformed entry (one that none of the three resource parsers accepts) is
skipped, leaving the loaded bundle exactly as if the entry were absent; an
entry with an unrecognized resource type is such an entry, hence ignored
without error. -/
theorem loader_best_effort (pid : String) (es es₂ : List JVal) (e : JVal) :
    (loadBundle pid (some (mkCollection es))).isOk = true ∧
    (parsePatient e = none → parseCondition e = none → parseObservation e = none →
      loadBundle pid (some (mkCollection (es ++ e :: es₂))) =
        loadBundle pid (some (mkCollection (es ++ es₂)))) ∧
    (resourceTypeOf e ≠ some "Patient" → resourceTypeOf e ≠ some "Condition" →
      resourceTypeOf e ≠ some "Observation" →
      loadBundle pid (some (mkCollection (es ++ e :: es₂))) =
        loadBundle pid (some (mkCollection (es ++ es₂)))) := by
  have hparse : ∀ xs : List JVal, loadBundle pid (some (mkCollection xs)) =
      .ok ⟨xs.filterMap parsePatient, xs.filterMap parseCondition,
        xs.filterMap parseObservation⟩ :=
    fun xs => loadBundle_entries pid (mkCollection xs) xs rfl
  have key : parsePatient e = none → parseCondition e = none →
      parseObservation e = none →
      loadBundle pid (some (mkCollection (es ++ e :: es₂))) =
        loadBundle pid (some (mkCollection (es ++ es₂))) := by
    intro h1 h2 h3
    rw [hparse, hparse]
    simp [List.filterMap_append, List.filterMap_cons, h1, h2, h3]
  refine ⟨?_, key, ?_⟩
  · rw [hparse es]
    rfl
  · intro h1 h2 h3
    exact key (parsePatient_none_of_type e h1) (parseCondition_none_of_type e h2)
      (parseObservation_none_of_type e h3)

/-- Concrete instantiation of best-effort loading: a Device entry among the
entries is ignored, and the loader still succeeds. -/
theorem loader_best_effort_witness :
    (loadBundle "w" (some (mkCollection [junkEntry]))).isOk = true ∧
    loadBundle "w" (some (mkCollection
      ([pEntry "a" "B" "c" "d"] ++ junkEntry :: []))) =
      loadBundle "w" (some (mkCollection ([pEntry "a" "B" "c" "d"] ++ []))) :=
  ⟨(loader_best_effort "w" [junkEntry] [] junkEntry).1,
   (loader_best_effort "w" [pEntry "a" "B" "c" "d"] [] junkEntry).2.2
     (by decide) (by decide) (by decide)⟩

end FHIR
